import Mathlib

/-!
Verification development for the SEED Pomodoro repository.

The development shallowly embeds the two core modules:

* `src/timer_logic.py` — the `PomodoroTimer` state machine.  Python floats
  (wall-clock instants and elapsed seconds) are modelled as rationals `ℚ`;
  every operation that reads `time.time()` in Python instead receives the
  current instant `now : ℚ` as an explicit argument, following the spec's own
  "injectable clock" reframing.  Integer configuration fields stay `Int`
  (Python's unbounded `int`), and Python's `%` on integers is `Int.fmod`
  (both round toward negative infinity, i.e. the sign follows the divisor).

* `src/stats.py` — `DailyStats` and `StatsTracker`.  Calendar dates, written
  `YYYY-MM-DD` strings in Python, are modelled as integer day numbers: for
  dates in that fixed-width format, lexicographic string order coincides with
  numeric order of day numbers and `(d1 - d2).days` is plain subtraction, so
  the sort in `_update_streak` and the membership tests are preserved
  faithfully.  JSON documents are modelled by the inductive `JValue`;
  object keys that are well-formed date strings appear as `JKey.date d`,
  all other keys as `JKey.str s`.  Python dictionary primitives (`d[k]`,
  `d.get(k, v)`, `d.items()`) are modelled as `Except`-valued functions whose
  error constructors name the exception Python would raise (`KeyError`,
  `TypeError` when subscripting a non-dict, `AttributeError` when calling a
  dict method on a non-dict, `ValueError` from `datetime.strptime`,
  `json.JSONDecodeError` from `json.load`).

  Two deliberate abstraction notes, neither of which any theorem below
  depends on: (1) `DailyStats.from_dict` reads its numeric fields as
  integers and reports `TypeError` on a non-numeric field, while CPython
  stores the raw value and only crashes later when `_update_streak`
  compares `pomodoros > 0`; (2) `StatsTracker.load` decodes date keys while
  building the history, while CPython keeps raw string keys and raises the
  `ValueError` inside `_update_streak` (which `_load` always invokes).
-/

/-! ## Timer engine (`src/timer_logic.py`) -/

/-- `TimerPhase` : the current phase of the Pomodoro cycle. -/
inductive TimerPhase where
  | focus
  | short_break
  | long_break
deriving DecidableEq

/-- `TimerConfig` : configuration for the Pomodoro timer (seconds / counts). -/
structure TimerConfig where
  focus_duration : Int := 25 * 60
  short_break_duration : Int := 5 * 60
  long_break_duration : Int := 15 * 60
  pomodoros_before_long_break : Int := 4
deriving DecidableEq

/-- State of a `PomodoroTimer` object: the fields set by `__init__`/`reset`. -/
structure PomodoroTimer where
  config : TimerConfig
  phase : TimerPhase
  pomodoros_completed : Int
  is_running : Bool
  is_paused : Bool
  start_time : Option ℚ
  paused_elapsed : ℚ
  total_elapsed : ℚ
deriving DecidableEq

/-- The state produced by `PomodoroTimer.__init__` (which calls `reset`). -/
def PomodoroTimer.initial (config : TimerConfig) : PomodoroTimer :=
  { config := config
    phase := .focus
    pomodoros_completed := 0
    is_running := false
    is_paused := false
    start_time := none
    paused_elapsed := 0
    total_elapsed := 0 }

/-- `reset` : reset timer to initial state (keeps the configuration). -/
def PomodoroTimer.reset (t : PomodoroTimer) : PomodoroTimer :=
  PomodoroTimer.initial t.config

/-- `get_elapsed` : elapsed time in seconds for the current phase.
`if not self.is_running or self.start_time is None: return self.paused_elapsed`
then `return time.time() - self.start_time`. -/
def PomodoroTimer.get_elapsed (t : PomodoroTimer) (now : ℚ) : ℚ :=
  match t.is_running, t.start_time with
  | true, some st => now - st
  | _, _ => t.paused_elapsed

/-- `start` : start or resume the timer
(`self.start_time = time.time() - self.paused_elapsed`). -/
def PomodoroTimer.start (t : PomodoroTimer) (now : ℚ) : PomodoroTimer :=
  if t.is_running then t
  else { t with
    is_running := true
    is_paused := false
    start_time := some (now - t.paused_elapsed) }

/-- `pause` : pause the timer.  Python sets `is_paused` first, then captures
`paused_elapsed = self.get_elapsed()` while `is_running` is still `True`, then
clears `is_running`; the simultaneous record update below is equivalent
because `get_elapsed` is evaluated on the pre-call state `t`. -/
def PomodoroTimer.pause (t : PomodoroTimer) (now : ℚ) : PomodoroTimer :=
  if t.is_running ∧ ¬t.is_paused then
    { t with
      is_paused := true
      paused_elapsed := t.get_elapsed now
      is_running := false }
  else t

/-- `stop` : stop the timer completely. -/
def PomodoroTimer.stop (t : PomodoroTimer) : PomodoroTimer :=
  { t with
    is_running := false
    is_paused := false
    paused_elapsed := 0
    start_time := none }

/-- `get_phase_duration` : total duration of the current phase in seconds. -/
def PomodoroTimer.get_phase_duration (t : PomodoroTimer) : Int :=
  match t.phase with
  | .focus => t.config.focus_duration
  | .short_break => t.config.short_break_duration
  | .long_break => t.config.long_break_duration

/-- `get_remaining` : `max(0, duration - elapsed)`. -/
def PomodoroTimer.get_remaining (t : PomodoroTimer) (now : ℚ) : ℚ :=
  max 0 ((t.get_phase_duration : ℚ) - t.get_elapsed now)

/-- `get_progress` : `0.0` when the phase duration is `0`, otherwise
`min(1.0, elapsed / duration)`. -/
def PomodoroTimer.get_progress (t : PomodoroTimer) (now : ℚ) : ℚ :=
  if t.get_phase_duration = 0 then 0
  else min 1 (t.get_elapsed now / (t.get_phase_duration : ℚ))

/-- `_advance_phase` : move to the next phase in the cycle.  Python's
`pc % n == 0` is integer `%` with sign following the divisor, i.e.
`Int.fmod` (for `n = 0` Python would raise `ZeroDivisionError`; every
theorem below that touches this branch assumes a positive
`pomodoros_before_long_break`, which is the spec's configuration
invariant). -/
def PomodoroTimer.advance_phase (t : PomodoroTimer) (now : ℚ) : PomodoroTimer :=
  let t1 :=
    if t.phase = .focus then
      { t with
        pomodoros_completed := t.pomodoros_completed + 1
        phase :=
          if Int.fmod (t.pomodoros_completed + 1) t.config.pomodoros_before_long_break = 0
          then TimerPhase.long_break
          else TimerPhase.short_break }
    else { t with phase := .focus }
  { t1 with
    paused_elapsed := 0
    start_time := if t1.is_running then some now else t1.start_time }

/-- `check_completion` : if the current phase is complete, advance and
return `True`; otherwise return `False`.  The returned pair is
(return value, post-call object state). -/
def PomodoroTimer.check_completion (t : PomodoroTimer) (now : ℚ) : Bool × PomodoroTimer :=
  if t.get_remaining now ≤ 0 then (true, t.advance_phase now) else (false, t)

/-- Engine states reachable through the public operations, observed at
non-decreasing clock instants (`time.time()` is assumed monotone over the
interaction, per the spec's injectable-clock reading).  `Reachable t now`
says: the object can be in state `t` with the clock currently reading
`now`. -/
inductive Reachable : PomodoroTimer → ℚ → Prop where
  | init (cfg : TimerConfig) (t0 : ℚ) : Reachable (PomodoroTimer.initial cfg) t0
  | wait {s : PomodoroTimer} {now now' : ℚ} :
      Reachable s now → now ≤ now' → Reachable s now'
  | step_start {s : PomodoroTimer} {now : ℚ} :
      Reachable s now → Reachable (s.start now) now
  | step_pause {s : PomodoroTimer} {now : ℚ} :
      Reachable s now → Reachable (s.pause now) now
  | step_stop {s : PomodoroTimer} {now : ℚ} :
      Reachable s now → Reachable s.stop now
  | step_reset {s : PomodoroTimer} {now : ℚ} :
      Reachable s now → Reachable s.reset now
  | step_check {s : PomodoroTimer} {now : ℚ} :
      Reachable s now → Reachable (s.check_completion now).2 now

/-! ## Statistics (`src/stats.py`) -/

/-- `DailyStats` : statistics for a single day.  The Python `date` field is a
`YYYY-MM-DD` string, modelled as an integer day number (see the header
note). -/
structure DailyStats where
  date : Int
  pomodoros : Int
  focus_time : Int
  break_time : Int
  completed_cycles : Int
  long_breaks_taken : Int
deriving DecidableEq

/-- `DailyStats(date_str)` : the freshly constructed all-zero record. -/
def DailyStats.fresh (d : Int) : DailyStats :=
  { date := d
    pomodoros := 0
    focus_time := 0
    break_time := 0
    completed_cycles := 0
    long_breaks_taken := 0 }

/-- Python exceptions that the load path can raise. -/
inductive PyError where
  | keyError
  | typeError
  | attributeError
  | valueError
  | jsonDecodeError
deriving DecidableEq

/-- A JSON object key: keys that are well-formed `YYYY-MM-DD` date strings
are carried as day numbers, all other keys as plain strings. -/
inductive JKey where
  | str (s : String)
  | date (d : Int)
deriving DecidableEq

/-- JSON values as produced by `json.load` (numbers restricted to the
integers the program reads and writes). -/
inductive JValue where
  | null
  | bool (b : Bool)
  | num (n : Int)
  | str (s : String)
  | arr (xs : List JValue)
  | obj (fields : List (JKey × JValue))

/-- Association lookup in a JSON object, first binding wins (a parsed JSON
object has distinct keys, so this agrees with the Python dict). -/
def lookupKey : List (JKey × JValue) → JKey → Option JValue
  | [], _ => none
  | (k, v) :: rest, key => if k = key then some v else lookupKey rest key

/-- Python `data[k]` : `KeyError` when a dict lacks the key, `TypeError`
when subscripting a non-dict with a string key. -/
def pyGetItem (j : JValue) (k : JKey) : Except PyError JValue :=
  match j with
  | .obj fields =>
      match lookupKey fields k with
      | some v => .ok v
      | none => .error .keyError
  | _ => .error .typeError

/-- Python `data.get(k, dflt)` : `AttributeError` when called on a
non-dict. -/
def pyDictGet (j : JValue) (k : JKey) (dflt : JValue) : Except PyError JValue :=
  match j with
  | .obj fields => .ok ((lookupKey fields k).getD dflt)
  | _ => .error .attributeError

/-- Python `data.items()` : `AttributeError` when called on a non-dict. -/
def pyItems (j : JValue) : Except PyError (List (JKey × JValue)) :=
  match j with
  | .obj fields => .ok fields
  | _ => .error .attributeError

/-- Read a JSON value as an integer (see the header note on mistyped
fields). -/
def JValue.asInt (j : JValue) : Except PyError Int :=
  match j with
  | .num n => .ok n
  | _ => .error .typeError

/-- `datetime.strptime(key, ...)` on an object key: a key that is not a
well-formed date raises `ValueError`. -/
def JKey.asDate (k : JKey) : Except PyError Int :=
  match k with
  | .date d => .ok d
  | .str _ => .error .valueError

/-- `DailyStats.to_dict` with the derived `total_time` field left as a
parameter; `to_dict` instantiates it with `focus_time + break_time`.  The
parameterised form states that the reader below never consults the
serialized `total_time`. -/
def DailyStats.to_dict_tt (s : DailyStats) (tt : JValue) : JValue :=
  .obj [ (.str "date", .num s.date),
         (.str "pomodoros", .num s.pomodoros),
         (.str "focus_time", .num s.focus_time),
         (.str "break_time", .num s.break_time),
         (.str "completed_cycles", .num s.completed_cycles),
         (.str "long_breaks_taken", .num s.long_breaks_taken),
         (.str "total_time", tt) ]

/-- `to_dict` : convert to a dictionary for serialization;
`total_time = focus_time + break_time` is recomputed here on every write. -/
def DailyStats.to_dict (s : DailyStats) : JValue :=
  s.to_dict_tt (.num (s.focus_time + s.break_time))

/-- `from_dict` : create a `DailyStats` from a dictionary.  `date`,
`pomodoros`, `focus_time` and `break_time` are required subscripts
(`KeyError` when absent); `completed_cycles` and `long_breaks_taken` are
read with `.get(key, 0)`. -/
def DailyStats.from_dict (j : JValue) : Except PyError DailyStats := do
  let d ← (← pyGetItem j (.str "date")).asInt
  let p ← (← pyGetItem j (.str "pomodoros")).asInt
  let f ← (← pyGetItem j (.str "focus_time")).asInt
  let b ← (← pyGetItem j (.str "break_time")).asInt
  let c ← (← pyDictGet j (.str "completed_cycles") (.num 0)).asInt
  let l ← (← pyDictGet j (.str "long_breaks_taken") (.num 0)).asInt
  pure { date := d
         pomodoros := p
         focus_time := f
         break_time := b
         completed_cycles := c
         long_breaks_taken := l }

/-- The in-memory `StatsTracker.history` dict, keyed by day number. -/
abbrev StatsHistory := List (Int × DailyStats)

/-- `self.history[date_str].pomodoros` for a key taken from the history
(the default is never reached for keys that come from the history
itself). -/
def histPom (history : StatsHistory) (d : Int) : Int :=
  match history.lookup d with
  | some s => s.pomodoros
  | none => 0

/-- `sorted(self.history.keys(), reverse=True)` : for `YYYY-MM-DD` strings,
descending lexicographic order is descending day-number order. -/
def sortedDatesDesc (history : StatsHistory) : List Int :=
  (history.map Prod.fst).insertionSort (· ≥ ·)

/-- The loop body of `_update_streak`.  Python iterates with
`for i, date_str in enumerate(dates)` and reads `dates[i-1]`; since the loop
breaks at the first failure, `dates[i-1]` is exactly the previously counted
date, carried here as `prev` (`none` on the first iteration, where the gap
is measured from today and `delta <= 1` is the signed test the source
performs). -/
def streakLoop (pom : Int → Int) (today : Int) :
    List Int → Option Int → Nat → Nat
  | [], _, streak => streak
  | d :: rest, none, streak =>
      if today - d ≤ 1 ∧ 0 < pom d then
        streakLoop pom today rest (some d) (streak + 1)
      else streak
  | d :: rest, some prev, streak =>
      if prev - d = 1 ∧ 0 < pom d then
        streakLoop pom today rest (some d) (streak + 1)
      else streak

/-- `_update_streak` : walk the dates in descending order and count the
streak. -/
def update_streak (history : StatsHistory) (today : Int) : Nat :=
  streakLoop (histPom history) today (sortedDatesDesc history) none 0

/-- The continuation of the claimed walk after a first date has been
counted: each subsequent date counts exactly when its gap from the
previously counted date is exactly one day and its pomodoro count is
positive, and the first failure stops the walk. -/
def claimChain (pom : Int → Int) : Int → List Int → Nat
  | _, [] => 0
  | prev, d :: ds =>
      if prev - d = 1 ∧ 0 < pom d then 1 + claimChain pom d ds else 0

/-- The streak exactly as the claim words it: the first (most recent) date
is counted only if its gap from today is 0 or 1 day and its pomodoros are
positive, otherwise the streak is 0. -/
def claimStreak (history : StatsHistory) (today : Int) : Nat :=
  match sortedDatesDesc history with
  | [] => 0
  | d :: ds =>
      if (today - d = 0 ∨ today - d = 1) ∧ 0 < histPom history d then
        1 + claimChain (histPom history) d ds
      else 0

/-- The amended first-step condition: the source tests `delta <= 1` on the
signed gap, so the first date also counts when it lies in the future
(gap negative). -/
def claimStreakAmended (history : StatsHistory) (today : Int) : Nat :=
  match sortedDatesDesc history with
  | [] => 0
  | d :: ds =>
      if today - d ≤ 1 ∧ 0 < histPom history d then
        1 + claimChain (histPom history) d ds
      else 0

/-- The all-zero weekly entry synthesized for a day absent from history
(the dict literal in `get_weekly_summary`). -/
def zeroDayDict (d : Int) : JValue :=
  .obj [ (.str "date", .num d),
         (.str "pomodoros", .num 0),
         (.str "focus_time", .num 0),
         (.str "break_time", .num 0),
         (.str "completed_cycles", .num 0),
         (.str "long_breaks_taken", .num 0),
         (.str "total_time", .num 0) ]

/-- `get_weekly_summary` : one entry per day for today back through six days
prior, in that order; days present in history contribute their `to_dict`,
absent days the all-zero entry. -/
def get_weekly_summary (history : StatsHistory) (today : Int) : List JValue :=
  (List.range 7).map fun i =>
    let day := today - i
    match history.lookup day with
    | some s => s.to_dict
    | none => zeroDayDict day

/-- The serialized history written by `_save`:
`{date_str: stats.to_dict() for date_str, stats in self.history.items()}`. -/
def encodeHistory (history : StatsHistory) : List (JKey × JValue) :=
  history.map fun e => (JKey.date e.1, e.2.to_dict)

/-- The full document written by `_save` (`ts` is the
`datetime.now().isoformat()` string). -/
def saveDoc (history : StatsHistory) (streak : Nat) (ts : String) : JValue :=
  .obj [ (.str "history", .obj (encodeHistory history)),
         (.str "streak", .num streak),
         (.str "last_updated", .str ts) ]

/-- The dict comprehension in `_load` rebuilding the history from the
parsed document. -/
def decodeEntries : List (JKey × JValue) → Except PyError StatsHistory
  | [] => .ok []
  | (k, v) :: rest => do
      let d ← k.asDate
      let s ← DailyStats.from_dict v
      let tail ← decodeEntries rest
      pure ((d, s) :: tail)

/-- Contents found at the storage path: no file at all, a file that
`json.load` rejects (`JSONDecodeError`), or a parsed JSON document. -/
inductive Storage where
  | missing
  | notJson
  | doc (j : JValue)

/-- The fields of a `StatsTracker` that `_load` establishes. -/
structure StatsTracker where
  history : StatsHistory
  current_day : DailyStats
  streak : Nat
deriving DecidableEq

/-- `_load` (together with the `__init__` defaults it relies on): missing
file keeps the empty history and recomputes the streak; unparsable
contents or a `KeyError` fall into the `except` clause and start fresh with
streak `0`; any other exception raised while rebuilding the history
propagates out of the constructor. -/
def StatsTracker.load (st : Storage) (today : Int) : Except PyError StatsTracker :=
  match st with
  | .missing => .ok ⟨[], DailyStats.fresh today, update_streak [] today⟩
  | .notJson => .ok ⟨[], DailyStats.fresh today, 0⟩
  | .doc j =>
      let attempt : Except PyError StatsTracker := do
        let histVal ← pyDictGet j (.str "history") (.obj [])
        let items ← pyItems histVal
        let history ← decodeEntries items
        let current :=
          match history.lookup today with
          | some s => s
          | none => DailyStats.fresh today
        pure ⟨history, current, update_streak history today⟩
      match attempt with
      | .ok s => .ok s
      | .error .jsonDecodeError => .ok ⟨[], DailyStats.fresh today, 0⟩
      | .error .keyError => .ok ⟨[], DailyStats.fresh today, 0⟩
      | .error e => .error e

/-- Structural invariant of reachable states: banked elapsed time is never
negative, and while running the reference instant does not lie in the
future. -/
def TimerInv (s : PomodoroTimer) (now : ℚ) : Prop :=
  0 ≤ s.paused_elapsed ∧
    (s.is_running = true → ∃ st, s.start_time = some st ∧ st ≤ now)

theorem TimerInv.monotone {s : PomodoroTimer} {now now' : ℚ}
    (h : TimerInv s now) (hle : now ≤ now') : TimerInv s now' :=
  ⟨h.1, fun hr => by
    obtain ⟨st, hst, h1⟩ := h.2 hr
    exact ⟨st, hst, le_trans h1 hle⟩⟩

theorem TimerInv.start_step (s : PomodoroTimer) (now : ℚ)
    (h : TimerInv s now) : TimerInv (s.start now) now := by
  by_cases hr : s.is_running = true
  · simpa [PomodoroTimer.start, hr] using h
  · refine ⟨by simpa [PomodoroTimer.start, hr] using h.1, fun _ => ?_⟩
    exact ⟨now - s.paused_elapsed, by simp [PomodoroTimer.start, hr],
      by linarith [h.1]⟩

theorem TimerInv.pause_step (s : PomodoroTimer) (now : ℚ)
    (h : TimerInv s now) : TimerInv (s.pause now) now := by
  by_cases hc : s.is_running = true ∧ ¬s.is_paused = true
  · obtain ⟨st, hst, hle⟩ := h.2 hc.1
    constructor
    · simp [PomodoroTimer.pause, hc, PomodoroTimer.get_elapsed, hc.1, hst]
      linarith
    · intro hr
      simp [PomodoroTimer.pause, hc] at hr
  · have heq : s.pause now = s := by
      unfold PomodoroTimer.pause
      rw [if_neg hc]
    rwa [heq]

theorem TimerInv.stop_step (s : PomodoroTimer) (now : ℚ) :
    TimerInv s.stop now := by
  constructor <;> simp [PomodoroTimer.stop]

theorem TimerInv.reset_step (s : PomodoroTimer) (now : ℚ) :
    TimerInv s.reset now := by
  constructor <;> simp [PomodoroTimer.reset, PomodoroTimer.initial]

theorem PomodoroTimer.advance_paused_elapsed (s : PomodoroTimer) (now : ℚ) :
    (s.advance_phase now).paused_elapsed = 0 := by
  by_cases hp : s.phase = TimerPhase.focus <;>
    simp [PomodoroTimer.advance_phase, hp]

theorem PomodoroTimer.advance_is_running (s : PomodoroTimer) (now : ℚ) :
    (s.advance_phase now).is_running = s.is_running := by
  by_cases hp : s.phase = TimerPhase.focus <;>
    simp [PomodoroTimer.advance_phase, hp]

theorem PomodoroTimer.advance_is_paused (s : PomodoroTimer) (now : ℚ) :
    (s.advance_phase now).is_paused = s.is_paused := by
  by_cases hp : s.phase = TimerPhase.focus <;>
    simp [PomodoroTimer.advance_phase, hp]

theorem PomodoroTimer.advance_config (s : PomodoroTimer) (now : ℚ) :
    (s.advance_phase now).config = s.config := by
  by_cases hp : s.phase = TimerPhase.focus <;>
    simp [PomodoroTimer.advance_phase, hp]

theorem PomodoroTimer.advance_start_time_of_running (s : PomodoroTimer)
    (now : ℚ) (hr : s.is_running = true) :
    (s.advance_phase now).start_time = some now := by
  by_cases hp : s.phase = TimerPhase.focus <;>
    simp [PomodoroTimer.advance_phase, hp, hr]

theorem TimerInv.check_step (s : PomodoroTimer) (now : ℚ)
    (h : TimerInv s now) : TimerInv (s.check_completion now).2 now := by
  by_cases hdone : s.get_remaining now ≤ 0
  · constructor
    · simp [PomodoroTimer.check_completion, hdone,
        PomodoroTimer.advance_paused_elapsed]
    · intro hr
      simp only [PomodoroTimer.check_completion, if_pos hdone] at hr ⊢
      rw [PomodoroTimer.advance_is_running] at hr
      exact ⟨now, s.advance_start_time_of_running now hr, le_refl now⟩
  · simpa [PomodoroTimer.check_completion, hdone] using h

theorem Reachable.invariant {s : PomodoroTimer} {now : ℚ}
    (h : Reachable s now) : TimerInv s now := by
  induction h with
  | init cfg t0 =>
      exact ⟨le_refl 0, by simp [PomodoroTimer.initial]⟩
  | wait _ hle ih => exact ih.monotone hle
  | step_start _ ih => exact TimerInv.start_step _ _ ih
  | step_pause _ ih => exact TimerInv.pause_step _ _ ih
  | step_stop _ _ => exact TimerInv.stop_step _ _
  | step_reset _ _ => exact TimerInv.reset_step _ _
  | step_check _ ih => exact TimerInv.check_step _ _ ih

/-- Reachable states never report a negative elapsed time. -/
theorem Reachable.elapsed_nonneg {s : PomodoroTimer} {now : ℚ}
    (h : Reachable s now) : 0 ≤ s.get_elapsed now := by
  obtain ⟨hpe, hrun⟩ := h.invariant
  unfold PomodoroTimer.get_elapsed
  by_cases hr : s.is_running = true
  · obtain ⟨st, hst, hle⟩ := hrun hr
    simp only [hr, hst]
    linarith
  · simp only [Bool.not_eq_true] at hr
    simpa [hr] using hpe


/-! ## Helper lemmas for the statistics store -/

theorem streakLoop_chain (pom : Int → Int) (today : Int) :
    ∀ (rest : List Int) (prev : Int) (streak : Nat),
      streakLoop pom today rest (some prev) streak =
        streak + claimChain pom prev rest := by
  intro rest
  induction rest with
  | nil => intro prev streak; simp [streakLoop, claimChain]
  | cons d ds ih =>
      intro prev streak
      by_cases hc : prev - d = 1 ∧ 0 < pom d
      · simp [streakLoop, claimChain, hc, ih]
        omega
      · simp [streakLoop, claimChain, hc]

theorem from_dict_to_dict_tt (s : DailyStats) (tt : JValue) :
    DailyStats.from_dict (s.to_dict_tt tt) = .ok s := rfl

theorem decode_encode (history : StatsHistory) :
    decodeEntries (encodeHistory history) = .ok history := by
  induction history with
  | nil => rfl
  | cons e rest ih =>
      obtain ⟨d, s⟩ := e
      simp [encodeHistory, decodeEntries, JKey.asDate] at ih ⊢
      rw [show DailyStats.from_dict s.to_dict = .ok s from rfl]
      simp [bind, Except.bind, ih]

/-! ## Claim C1 — streak computation -/

/-- C1 (counterexample): the claim states that the most recent history date
is counted only if its gap from today is 0 or 1 day, otherwise the streak
is 0.  The source tests the signed gap with `delta <= 1`, so a history
holding a single future date (here: two days after today, `pomodoros = 1`)
yields streak 1 while the claimed walk yields 0. -/
theorem C1_streak_counterexample :
    update_streak [(2, ⟨2, 1, 0, 0, 0, 0⟩)] 0 = 1 ∧
      claimStreak [(2, ⟨2, 1, 0, 0, 0, 0⟩)] 0 = 0 := by
  constructor <;> decide

/-- C1 (amended): `currentStreak()` equals the count produced by walking the
history dates in descending order: the first (most recent) date is counted
only if its signed gap from today is at most 1 day (so today, yesterday, or
any future date) and its pomodoros are positive, otherwise the streak is 0;
each subsequent date is counted only if its gap from the previously counted
date is exactly 1 day and its pomodoros are positive; the first failure
stops the walk.  The claim's two examples hold: history
{yesterday: pomodoros=2, day-before: pomodoros=3} gives streak 2, and a
history with only day `today-3` populated gives streak 0. -/
theorem C1_streak_walk :
    (∀ (history : StatsHistory) (today : Int),
      update_streak history today = claimStreakAmended history today) ∧
    update_streak [(-1, ⟨-1, 2, 3000, 600, 2, 0⟩), (-2, ⟨-2, 3, 4500, 900, 3, 0⟩)] 0 = 2 ∧
    update_streak [(-3, ⟨-3, 2, 3000, 600, 2, 0⟩)] 0 = 0 := by
  refine ⟨fun history today => ?_, by decide, by decide⟩
  unfold update_streak claimStreakAmended
  cases hs : sortedDatesDesc history with
  | nil => simp [streakLoop]
  | cons d ds =>
      simp only [streakLoop]
      by_cases hc : today - d ≤ 1 ∧ 0 < histPom history d
      · rw [if_pos hc, if_pos hc, streakLoop_chain]
      · rw [if_neg hc, if_neg hc]

/-! ## Claim C3 — load of corrupt or missing storage -/

/-- C3: the claim (and the `except` clause's own comment, "Corrupted file,
start fresh") promise that unreadable or unparsable storage is never fatal.
A missing file and a file `json.load` rejects indeed produce empty history
and streak 0 — but a file holding well-formed JSON of the wrong shape,
e.g. a top-level list `[]`, raises an uncaught `AttributeError` from
`data.get("history", {})`, because the handler catches only
`JSONDecodeError` and `KeyError`. -/
theorem C3_load_corrupt_eval :
    StatsTracker.load (.doc (.arr [])) 0 = .error .attributeError ∧
      StatsTracker.load .missing 0 = .ok ⟨[], DailyStats.fresh 0, 0⟩ ∧
      StatsTracker.load .notJson 0 = .ok ⟨[], DailyStats.fresh 0, 0⟩ :=
  ⟨rfl, rfl, rfl⟩

/-! ## Claim C7 — weekly summary -/

/-- C7: `get_weekly_summary` returns exactly 7 entries, one per calendar day
from today back 6 days inclusive in that order: the entry at position `i`
belongs to day `today - i`; a day present in history contributes its
serialized `to_dict`, and a day absent from history is synthesized as the
all-zero entry carrying that day's date. -/
theorem C7_weekly_summary (history : StatsHistory) (today : Int) :
    (get_weekly_summary history today).length = 7 ∧
    ∀ i : Nat, i < 7 →
      (history.lookup (today - i) = none →
        (get_weekly_summary history today).getD i .null = zeroDayDict (today - i)) ∧
      (∀ s, history.lookup (today - i) = some s →
        (get_weekly_summary history today).getD i .null = s.to_dict) := by
  constructor
  · rfl
  · intro i hi
    have hentry : (get_weekly_summary history today).getD i .null =
        (match history.lookup (today - i) with
         | some s => s.to_dict
         | none => zeroDayDict (today - i)) := by
      interval_cases i <;> rfl
    constructor
    · intro hnone
      rw [hentry, hnone]
    · intro s hsome
      rw [hentry, hsome]

/-- C7 (witness): on the empty history, with today = 0, the summary has 7
entries and position 3 is the all-zero entry for day `-3`. -/
theorem C7_weekly_summary_witness :
    (get_weekly_summary [] 0).length = 7 ∧
      (get_weekly_summary [] 0).getD 3 .null = zeroDayDict (0 - (3 : Nat)) :=
  ⟨(C7_weekly_summary [] 0).1, ((C7_weekly_summary [] 0).2 3 (by decide)).1 rfl⟩

/-! ## Claim C8 — persistence round trip -/

/-- C8: persist-then-reload is a round trip: loading the document `_save`
writes for any history reproduces exactly that history (every date's
`DailyStats` values), today's entry when present, and the recomputed
streak; the serialized `total_time` field is recomputed on write as
`focus_time + break_time`, and the reader produces the same record whatever
value that field holds (it is never consulted on read). -/
theorem C8_round_trip (history : StatsHistory) (d : DailyStats) (tt : JValue)
    (today : Int) (streak : Nat) (ts : String) :
    StatsTracker.load (.doc (saveDoc history streak ts)) today =
      .ok ⟨history, (history.lookup today).getD (DailyStats.fresh today),
        update_streak history today⟩ ∧
    DailyStats.from_dict (d.to_dict_tt tt) = .ok d ∧
    d.to_dict = d.to_dict_tt (.num (d.focus_time + d.break_time)) := by
  refine ⟨?_, from_dict_to_dict_tt d tt, rfl⟩
  unfold StatsTracker.load saveDoc
  simp only [pyDictGet, lookupKey, pyItems, bind, Except.bind, pure, Except.pure,
    reduceIte, Option.getD_some]
  rw [decode_encode]
  cases hl : history.lookup today <;> simp [hl, Option.getD]

/-! ## Claim C2 — advance policy -/

/-- C2: leaving Focus increments `pomodoros_completed` and selects LongBreak
exactly when the incremented count is divisible by
`pomodoros_before_long_break` (else ShortBreak); leaving either break phase
returns to Focus with the count unchanged.  With
`pomodoros_before_long_break = 2` the second Focus completion lands in
LongBreak with `pomodoros_completed = 2`. -/
theorem C2_advance_policy (t : PomodoroTimer) (now : ℚ)
    (hn : 0 < t.config.pomodoros_before_long_break) :
    (t.phase = .focus →
      (t.advance_phase now).pomodoros_completed = t.pomodoros_completed + 1 ∧
      (t.advance_phase now).phase =
        (if (t.pomodoros_completed + 1) % t.config.pomodoros_before_long_break = 0
         then TimerPhase.long_break else TimerPhase.short_break)) ∧
    (t.phase ≠ .focus →
      (t.advance_phase now).phase = .focus ∧
      (t.advance_phase now).pomodoros_completed = t.pomodoros_completed) ∧
    (let cfg : TimerConfig := ⟨10, 5, 15, 2⟩
     let s1 := ((PomodoroTimer.initial cfg).start 0).check_completion 11
     let s2 := s1.2.check_completion 17
     let s3 := s2.2.check_completion 28
     s1.2.phase = .short_break ∧ s1.2.pomodoros_completed = 1 ∧
       s2.2.phase = .focus ∧ s3.2.phase = .long_break ∧
       s3.2.pomodoros_completed = 2) := by
  refine ⟨fun hp => ⟨?_, ?_⟩, fun hp => ?_, ?_⟩
  · simp [PomodoroTimer.advance_phase, hp]
  · simp [PomodoroTimer.advance_phase, hp, Int.fmod_eq_emod _ (le_of_lt hn)]
  · constructor <;> simp [PomodoroTimer.advance_phase, hp]
  · norm_num +decide [PomodoroTimer.initial, PomodoroTimer.start,
      PomodoroTimer.check_completion, PomodoroTimer.get_remaining,
      PomodoroTimer.get_elapsed, PomodoroTimer.get_phase_duration,
      PomodoroTimer.advance_phase, Int.fmod]

/-- C2 (witness): the first Focus completion increments the count. -/
theorem C2_advance_policy_witness :
    ((PomodoroTimer.initial ⟨10, 5, 15, 2⟩).advance_phase 0).pomodoros_completed = 0 + 1 :=
  ((C2_advance_policy (PomodoroTimer.initial ⟨10, 5, 15, 2⟩) 0 (by decide)).1 rfl).1

/-! ## Claim C4 — remaining + elapsed = duration while not running -/

/-- C4 (counterexample): the claimed identity fails on a reachable paused
state.  Start the default-focus-10-second timer at instant 0 and pause it
at instant 15 without polling `check_completion`: the state is paused
(`is_running = false`) and reachable, but `get_remaining` clamps at 0, so
remaining + elapsed = 0 + 15 = 15 while the phase duration is 10. -/
theorem C4_sum_counterexample :
    Reachable (((PomodoroTimer.initial ⟨10, 300, 900, 4⟩).start 0).pause 15) 15 ∧
    (((PomodoroTimer.initial ⟨10, 300, 900, 4⟩).start 0).pause 15).is_running = false ∧
    ¬((((PomodoroTimer.initial ⟨10, 300, 900, 4⟩).start 0).pause 15).get_remaining 15 +
        (((PomodoroTimer.initial ⟨10, 300, 900, 4⟩).start 0).pause 15).get_elapsed 15 =
      ((((PomodoroTimer.initial ⟨10, 300, 900, 4⟩).start 0).pause 15).get_phase_duration : ℚ)) := by
  refine ⟨?_, ?_, ?_⟩
  · exact Reachable.step_pause
      (Reachable.wait (Reachable.step_start (Reachable.init _ 0)) (by norm_num))
  · rfl
  · norm_num [PomodoroTimer.initial, PomodoroTimer.start, PomodoroTimer.pause,
      PomodoroTimer.get_elapsed, PomodoroTimer.get_remaining,
      PomodoroTimer.get_phase_duration]

/-- C4 (amended): for every engine state that is stopped or paused
(`is_running = false`) and whose elapsed time does not exceed the current
phase duration, `remaining + elapsed = duration` exactly. -/
theorem C4_remaining_plus_elapsed (t : PomodoroTimer) (now : ℚ)
    (hstop : t.is_running = false)
    (hle : t.get_elapsed now ≤ (t.get_phase_duration : ℚ)) :
    t.get_remaining now + t.get_elapsed now = (t.get_phase_duration : ℚ) := by
  unfold PomodoroTimer.get_remaining
  rw [max_eq_right (by linarith)]
  ring

/-- C4 (witness): the identity holds at the freshly constructed stopped
timer. -/
theorem C4_remaining_plus_elapsed_witness :
    (PomodoroTimer.initial ⟨10, 300, 900, 4⟩).get_remaining 0 +
        (PomodoroTimer.initial ⟨10, 300, 900, 4⟩).get_elapsed 0 =
      ((PomodoroTimer.initial ⟨10, 300, 900, 4⟩).get_phase_duration : ℚ) :=
  C4_remaining_plus_elapsed _ 0 rfl
    (by norm_num [PomodoroTimer.initial, PomodoroTimer.get_elapsed,
      PomodoroTimer.get_phase_duration])

/-! ## Claim C5 — check_completion -/

/-- C5: `check_completion` returns `True` exactly when
`get_remaining() <= 0` at the moment of the call; in that case and only
that case the state advances, otherwise the state is untouched.  With
`focus_duration = 10`, starting the stopped timer at instant 0 and polling
at instant 11 returns `True` with phase ShortBreak and one completed
pomodoro, and an immediate second poll returns `False`. -/
theorem C5_check_completion (t : PomodoroTimer) (now : ℚ) :
    ((t.check_completion now).1 = true ↔ t.get_remaining now ≤ 0) ∧
    ((t.check_completion now).1 = true →
      (t.check_completion now).2 = t.advance_phase now) ∧
    ((t.check_completion now).1 = false → (t.check_completion now).2 = t) ∧
    (let cfg : TimerConfig := ⟨10, 5 * 60, 15 * 60, 4⟩
     let r1 := ((PomodoroTimer.initial cfg).start 0).check_completion 11
     r1.1 = true ∧ r1.2.phase = .short_break ∧ r1.2.pomodoros_completed = 1 ∧
       (r1.2.check_completion 11).1 = false) := by
  refine ⟨?_, ?_, ?_, ?_⟩
  · by_cases hdone : t.get_remaining now ≤ 0 <;>
      simp [PomodoroTimer.check_completion, hdone]
  · intro h1
    by_cases hdone : t.get_remaining now ≤ 0
    · simp [PomodoroTimer.check_completion, hdone]
    · simp [PomodoroTimer.check_completion, hdone] at h1
  · intro h1
    by_cases hdone : t.get_remaining now ≤ 0
    · simp [PomodoroTimer.check_completion, hdone] at h1
    · simp [PomodoroTimer.check_completion, hdone]
  · norm_num +decide [PomodoroTimer.initial, PomodoroTimer.start,
      PomodoroTimer.check_completion, PomodoroTimer.get_remaining,
      PomodoroTimer.get_elapsed, PomodoroTimer.get_phase_duration,
      PomodoroTimer.advance_phase, Int.fmod]

/-- C5 (witness): the return-value characterization, evaluated at the
freshly constructed stopped timer polled at instant 3. -/
theorem C5_check_completion_witness :
    (((PomodoroTimer.initial ⟨10, 5 * 60, 15 * 60, 4⟩).check_completion 3).1 = true ↔
      (PomodoroTimer.initial ⟨10, 5 * 60, 15 * 60, 4⟩).get_remaining 3 ≤ 0) :=
  (C5_check_completion _ 3).1

/-! ## Claim C6 — pause then resume preserves elapsed time -/

/-- C6: for a running, unpaused timer, pausing at one instant and resuming
at any later call instant reproduces exactly the elapsed time captured at
the pause: the countdown continues instead of restarting. -/
theorem C6_pause_resume (t : PomodoroTimer) (now1 now2 : ℚ)
    (hrun : t.is_running = true) (hnp : t.is_paused = false) :
    ((t.pause now1).start now2).get_elapsed now2 = t.get_elapsed now1 := by
  have hc : t.is_running = true ∧ ¬t.is_paused = true := ⟨hrun, by simp [hnp]⟩
  simp [PomodoroTimer.pause, hc, PomodoroTimer.start, PomodoroTimer.get_elapsed]

/-- C6 (witness): start at 0, pause at 3, resume at 10 — the elapsed time
right after the resume equals the elapsed time at the pause. -/
theorem C6_pause_resume_witness :
    ((((PomodoroTimer.initial ⟨10, 300, 900, 4⟩).start 0).pause 3).start 10).get_elapsed 10 =
      ((PomodoroTimer.initial ⟨10, 300, 900, 4⟩).start 0).get_elapsed 3 :=
  C6_pause_resume _ 3 10 rfl rfl

/-! ## Claim C9 — progress ratio -/

/-- C9: `get_progress` is total: it returns `0` when the phase duration is
`0` (the division never executes with a zero divisor) and
`min 1 (elapsed / duration)` otherwise; it never exceeds `1`; it is
non-negative on every reachable state of a configuration with positive
durations; and it is non-decreasing in the clock while running (for a
non-negative duration). -/
theorem C9_progress_total (t : PomodoroTimer) (now now' : ℚ) :
    (t.get_phase_duration = 0 → t.get_progress now = 0) ∧
    (t.get_phase_duration ≠ 0 →
      t.get_progress now = min 1 (t.get_elapsed now / (t.get_phase_duration : ℚ))) ∧
    t.get_progress now ≤ 1 ∧
    (Reachable t now → 0 < t.config.focus_duration →
      0 < t.config.short_break_duration → 0 < t.config.long_break_duration →
      0 ≤ t.get_progress now) ∧
    (t.is_running = true → 0 ≤ t.get_phase_duration → now ≤ now' →
      t.get_progress now ≤ t.get_progress now') := by
  refine ⟨?_, ?_, ?_, ?_, ?_⟩
  · intro h0
    simp [PomodoroTimer.get_progress, h0]
  · intro h0
    simp [PomodoroTimer.get_progress, h0]
  · by_cases h0 : t.get_phase_duration = 0 <;>
      simp [PomodoroTimer.get_progress, h0]
  · intro hreach h1 h2 h3
    have he : 0 ≤ t.get_elapsed now := hreach.elapsed_nonneg
    have hd : 0 < t.get_phase_duration := by
      unfold PomodoroTimer.get_phase_duration
      cases t.phase <;> assumption
    have hdq : (0 : ℚ) < (t.get_phase_duration : ℚ) := by exact_mod_cast hd
    rw [PomodoroTimer.get_progress, if_neg (by omega)]
    exact le_min zero_le_one (div_nonneg he (le_of_lt hdq))
  · intro hrun hd hle
    have helapsed : t.get_elapsed now ≤ t.get_elapsed now' := by
      unfold PomodoroTimer.get_elapsed
      cases hst : t.start_time with
      | none => simp [hrun]
      | some st => simp [hrun]; linarith
    by_cases h0 : t.get_phase_duration = 0
    · simp [PomodoroTimer.get_progress, h0]
    · have hdq : (0 : ℚ) < (t.get_phase_duration : ℚ) := by
        have : 0 < t.get_phase_duration := by omega
        exact_mod_cast this
      rw [PomodoroTimer.get_progress, if_neg h0,
        PomodoroTimer.get_progress, if_neg h0]
      exact min_le_min (le_refl 1) ((div_le_div_iff_of_pos_right hdq).mpr helapsed)

/-- C9 (witness): the bounds hold at the freshly constructed timer with the
default configuration. -/
theorem C9_progress_total_witness :
    0 ≤ (PomodoroTimer.initial ⟨25 * 60, 5 * 60, 15 * 60, 4⟩).get_progress 0 ∧
      (PomodoroTimer.initial ⟨25 * 60, 5 * 60, 15 * 60, 4⟩).get_progress 0 ≤ 1 :=
  ⟨(C9_progress_total _ 0 0).2.2.2.1 (Reachable.init _ 0)
      (by decide) (by decide) (by decide),
    (C9_progress_total _ 0 0).2.2.1⟩

/-! ## Claim C10 — check_completion frame conditions -/

/-- C10: `check_completion` (and the advance it may trigger) never changes
`is_running`, `is_paused` or the configuration; when it does advance, a
non-running engine (paused or stopped) enters the new phase with elapsed
time zero, and a running engine gets its reference instant set to the call
instant. -/
theorem C10_check_frame (t : PomodoroTimer) (now : ℚ) :
    ((t.check_completion now).2.is_running = t.is_running ∧
     (t.check_completion now).2.is_paused = t.is_paused ∧
     (t.check_completion now).2.config = t.config) ∧
    ((t.check_completion now).1 = true →
      (t.is_running = false → (t.check_completion now).2.get_elapsed now = 0) ∧
      (t.is_running = true → (t.check_completion now).2.start_time = some now)) := by
  by_cases hdone : t.get_remaining now ≤ 0
  · refine ⟨⟨?_, ?_, ?_⟩, fun _ => ⟨fun hstop => ?_, fun hrun => ?_⟩⟩
    · simp [PomodoroTimer.check_completion, hdone, PomodoroTimer.advance_is_running]
    · simp [PomodoroTimer.check_completion, hdone, PomodoroTimer.advance_is_paused]
    · simp [PomodoroTimer.check_completion, hdone, PomodoroTimer.advance_config]
    · have h1 : (t.advance_phase now).is_running = false := by
        rw [PomodoroTimer.advance_is_running]; exact hstop
      have h2 := t.advance_paused_elapsed now
      simp only [PomodoroTimer.check_completion, if_pos hdone]
      simp [PomodoroTimer.get_elapsed, h1, h2]
    · simp only [PomodoroTimer.check_completion, if_pos hdone]
      exact t.advance_start_time_of_running now hrun
  · simp [PomodoroTimer.check_completion, hdone]

/-- C10 (witness): a timer paused past its phase end advances on the poll
and stays non-running with elapsed time reset to zero. -/
theorem C10_check_frame_witness :
    ((((PomodoroTimer.initial ⟨10, 300, 900, 4⟩).start 0).pause 15).check_completion
        15).2.get_elapsed 15 = 0 := by
  have h := C10_check_frame (((PomodoroTimer.initial ⟨10, 300, 900, 4⟩).start 0).pause 15) 15
  refine (h.2 ?_).1 ?_
  · norm_num [PomodoroTimer.initial, PomodoroTimer.start, PomodoroTimer.pause,
      PomodoroTimer.check_completion, PomodoroTimer.get_remaining,
      PomodoroTimer.get_elapsed, PomodoroTimer.get_phase_duration]
  · rfl
